import Mathlib

/-!
Shallow embedding of the Spark→Qdrant ingestion service
(`src/docker/ingest/app/app.py`) of SemanticSearchInfrastructure.

Modelling conventions:
* Machine side effects (HTTP calls to the embedding API, Qdrant upserts,
  uuid generation) are resolved by an `Env` of oracles indexed by the number
  of calls made so far, so a single run of a partition is a deterministic
  fold over its rows once the environment is fixed.
* A Python exception raised by an external call is modelled as a boolean
  outcome of the oracle; `try/except` blocks become case splits on it.
* Row values are strings; a dict value of `None` is `Option.none`, so
  `payload.get(k)` returning `None` (key absent or value null) is a single
  `none` as in Python.
* The `PState` record carries, besides the program variables `processed`,
  `failed` and `buffer`, a trace of the external calls made (`fetchCount`,
  `upsertCount`, `upsertSizes`, `uuidCount`), which instruments the
  observable I/O without altering control flow.
-/

namespace Ingest

/-- Characters stripped by Python's `str.strip()` (ASCII whitespace). -/
def isPySpace (c : Char) : Bool :=
  c == ' ' || c == '\t' || c == '\n' || c == '\r' || c == '\x0b' || c == '\x0c'

/-- Embedding of Python `str.strip()`: drop leading and trailing whitespace. -/
def pyStrip (s : String) : String :=
  String.mk (((s.data.dropWhile isPySpace).reverse.dropWhile isPySpace).reverse)

/-- Embedding of Python `str.lower()` (ASCII case folding, as used by the config strings). -/
def pyLower (s : String) : String :=
  String.mk (s.data.map Char.toLower)

/-- The `qdrant_client` distance metrics used by the app. -/
inductive Distance where
  | COSINE : Distance
  | DOT : Distance
  | EUCLID : Distance
deriving DecidableEq

/-- Embedding of `resolve_distance` (app.py lines 36-42): normalize by
strip + lower, then map the recognized aliases, defaulting to cosine. -/
def resolve_distance (value : String) : Distance :=
  let normalized := pyLower (pyStrip value)
  if normalized = "dot" ∨ normalized = "dotproduct" ∨ normalized = "dot_product" then
    Distance.DOT
  else if normalized = "l2" ∨ normalized = "euclid" ∨ normalized = "euclidean" then
    Distance.EUCLID
  else
    Distance.COSINE

/-- A vector returned by the embedding API. The numeric contents are opaque
to the ingest app (it only passes them through), so entries are `Int`. -/
abbrev EmbVector := List Int

/-- Observable behaviour of one `session.post` to the embedding endpoint, as
seen by `fetch_embedding`: either some exception is raised (transport,
timeout, JSON decoding), or a response arrives with an HTTP success flag
(`response.ok`) and an optional `embedding` field in the body. -/
inductive EmbedResponse where
  | exc : EmbedResponse
  | http (ok : Bool) (embedding : Option EmbVector) : EmbedResponse
deriving DecidableEq

/-- Embedding of `fetch_embedding` (app.py lines 99-112). The whole body is a
`try/except` returning `none` on any exception; on a success status the
`embedding` field is returned only if present and truthy (non-empty list);
all other cases log and return `none`. The Lean function is total: no
exception escapes to the caller. -/
def fetch_embedding (resp : EmbedResponse) : Option EmbVector :=
  match resp with
  | EmbedResponse.exc => none
  | EmbedResponse.http ok embedding =>
    if ok then
      match embedding with
      | some e => if e.isEmpty then none else some e
      | none => none
    else none

/-- One row's `asDict()` image: field name to value, `none` for a null value. -/
abbrev Payload := List (String × Option String)

/-- Embedding of Python `dict.get(k)`: the value stored at `k`, where both a
missing key and a stored `None` yield `none`. -/
def Payload.get (p : Payload) (k : String) : Option String :=
  match p.find? (fun kv => kv.1 == k) with
  | none => none
  | some kv => kv.2

/-- Embedding of `qmodels.PointStruct` as built at app.py line 146. -/
structure PointStruct where
  id : String
  vector : EmbVector
  payload : Payload
deriving DecidableEq

/-- Configuration surface used by `process_partition`. -/
structure Config where
  BATCH_SIZE : Nat
  TEXT_COLUMN : String
  ID_COLUMN : String

/-- Oracles resolving the external calls of one partition:
`embedResp n t` is the embedding endpoint's behaviour on the n-th POST of
this partition (with body text `t`), `upsertOk n` tells whether the n-th
Qdrant upsert succeeds (`false` = raises), `uuid n` is the n-th generated
`uuid.uuid4()` string. -/
structure Env where
  embedResp : Nat → String → EmbedResponse
  upsertOk : Nat → Bool
  uuid : Nat → String

/-- State of `process_partition`'s loop: the program variables `processed`,
`failed`, `buffer`, plus the call-trace instrumentation. -/
structure PState where
  processed : Nat
  failed : Nat
  buffer : List PointStruct
  fetchCount : Nat
  upsertCount : Nat
  uuidCount : Nat
  upsertSizes : List Nat
deriving DecidableEq

/-- Initial state at app.py lines 124-126. -/
def initState : PState :=
  { processed := 0, failed := 0, buffer := [], fetchCount := 0,
    upsertCount := 0, uuidCount := 0, upsertSizes := [] }

/-- Embedding of `flush_points` (app.py lines 115-118): on an empty list it
returns without touching the client; otherwise it issues one blocking upsert.
Result: (an upsert call was issued, the call raised). -/
def flush_points (upsertOk : Bool) (points : List PointStruct) : Bool × Bool :=
  if points.isEmpty then (false, false)
  else (true, !upsertOk)

/-- Embedding of the in-loop flush block (app.py lines 148-156):
`try: flush_points; processed += len(buffer)` / `except: failed += len(buffer)`
/ `finally: buffer.clear()`. The buffer is cleared on both paths. -/
def flushBlock (env : Env) (st : PState) : PState :=
  let res := flush_points (env.upsertOk st.upsertCount) st.buffer
  let n := st.buffer.length
  let calls := if res.1 then st.upsertCount + 1 else st.upsertCount
  let sizes := if res.1 then st.upsertSizes ++ [n] else st.upsertSizes
  if res.2 then
    { st with failed := st.failed + n, buffer := [],
              upsertCount := calls, upsertSizes := sizes }
  else
    { st with processed := st.processed + n, buffer := [],
              upsertCount := calls, upsertSizes := sizes }

/-- Embedding of the end-of-partition flush block (app.py lines 158-164):
the same try/except accounting as the in-loop flush, but with no `finally`
clause, so the local `buffer` list is left as it was. -/
def finalFlushBlock (env : Env) (st : PState) : PState :=
  let res := flush_points (env.upsertOk st.upsertCount) st.buffer
  let n := st.buffer.length
  let calls := if res.1 then st.upsertCount + 1 else st.upsertCount
  let sizes := if res.1 then st.upsertSizes ++ [n] else st.upsertSizes
  if res.2 then
    { st with failed := st.failed + n, upsertCount := calls, upsertSizes := sizes }
  else
    { st with processed := st.processed + n, upsertCount := calls, upsertSizes := sizes }

/-- Embedding of one iteration of the `for row in rows` loop of
`process_partition` (app.py lines 128-156): null text → failed; blank text
after strip → failed; otherwise resolve the id (a falsy id, absent, null or
empty, draws a fresh uuid), fetch the embedding; `none` → failed; otherwise
build a point from the non-null payload fields, append it, and flush when the
buffer has reached `BATCH_SIZE`. -/
def processRow (cfg : Config) (env : Env) (st : PState) (row : Payload) : PState :=
  match Payload.get row cfg.TEXT_COLUMN with
  | none => { st with failed := st.failed + 1 }
  | some t =>
    let text_value := pyStrip t
    if text_value = "" then { st with failed := st.failed + 1 }
    else
      let idDraw : String × Nat :=
        match Payload.get row cfg.ID_COLUMN with
        | none => (env.uuid st.uuidCount, st.uuidCount + 1)
        | some s => if s = "" then (env.uuid st.uuidCount, st.uuidCount + 1) else (s, st.uuidCount)
      match fetch_embedding (env.embedResp st.fetchCount text_value) with
      | none =>
        { st with failed := st.failed + 1, fetchCount := st.fetchCount + 1,
                  uuidCount := idDraw.2 }
      | some vec =>
        let payload_clean := row.filter (fun kv => kv.2.isSome)
        let buf := st.buffer ++ [{ id := idDraw.1, vector := vec, payload := payload_clean }]
        let st' := { st with buffer := buf, fetchCount := st.fetchCount + 1,
                             uuidCount := idDraw.2 }
        if cfg.BATCH_SIZE ≤ buf.length then flushBlock env st' else st'

/-- Embedding of `process_partition` (app.py lines 121-166): fold the loop
body over the rows, then run the final flush block when the buffer is
non-empty. The returned pair of the Python generator is
(`processed`, `failed`) of this final state. -/
def process_partition (cfg : Config) (env : Env) (rows : List Payload) : PState :=
  let st := List.foldl (processRow cfg env) initState rows
  if st.buffer.isEmpty then st else finalFlushBlock env st

/-- The `(processed, failed)` pair yielded by `process_partition`. -/
def partition_result (cfg : Config) (env : Env) (rows : List Payload) : Nat × Nat :=
  ((process_partition cfg env rows).processed, (process_partition cfg env rows).failed)

/-- Outcome of `client.get_collections()` inside `ensure_collection`: either
some exception is raised, or a list of collection names is returned (a null
`collections` field is already the empty list, via `or []`). -/
inductive ListOutcome where
  | raised : ListOutcome
  | ok (names : List String) : ListOutcome

/-- The store action `ensure_collection` performs after its lookup. -/
inductive EnsureAction where
  | noop : EnsureAction
  | create (name : String) (size : Nat) (dist : Distance) : EnsureAction
deriving DecidableEq

/-- Embedding of `ensure_collection` (app.py lines 51-67): list the existing
collections; if the configured name is present, return without creating;
if the lookup raises, log a warning and fall through; in both remaining
cases create the collection with the configured size and resolved metric.
The Lean function is total: the lookup exception is absorbed, never
propagated. -/
def ensure_collection (listing : ListOutcome) (collection : String) (size : Nat)
    (distName : String) : EnsureAction :=
  match listing with
  | ListOutcome.ok names =>
    if names.any (fun item => item == collection) then EnsureAction.noop
    else EnsureAction.create collection size (resolve_distance distName)
  | ListOutcome.raised => EnsureAction.create collection size (resolve_distance distName)

/-- One `ensure_collection` call against a functioning store: the listing
succeeds and reflects the store's collection names, and a performed creation
adds the name to the store. Result: (store afterwards, whether a creation
was performed). -/
def ensure_step (store : List String) (collection : String) (size : Nat)
    (distName : String) : List String × Bool :=
  match ensure_collection (ListOutcome.ok store) collection size distName with
  | EnsureAction.noop => (store, false)
  | EnsureAction.create name _ _ => (store ++ [name], true)

/-- Outcome of one `run_ingest()` call as seen by `main`'s loop: either it
returns an aggregate, or it raises some exception. -/
inductive RunOutcome where
  | success (processed failed : Nat) : RunOutcome
  | raised : RunOutcome

/-- Observable events of one pass through `main`'s `while True` body. -/
inductive LoopEvent where
  | runFinished (processed failed : Nat) : LoopEvent
  | runFailedLogged : LoopEvent
  | sleepPark : LoopEvent
  | sleepSeconds (s : Int) : LoopEvent
deriving DecidableEq

/-- Whether an event is a sleep step of the scheduler loop. -/
def LoopEvent.isSleep : LoopEvent → Bool
  | LoopEvent.sleepPark => true
  | LoopEvent.sleepSeconds _ => true
  | _ => false

/-- Embedding of one iteration of `main`'s loop (app.py lines 190-203): the
`try/except` around `run_ingest` logs either the finished aggregate or the
caught exception, then the loop reaches a sleep step: parking indefinitely
when the interval is ≤ 0, sleeping the configured interval otherwise. -/
def main_iteration (interval : Int) (outcome : RunOutcome) : List LoopEvent :=
  (match outcome with
   | RunOutcome.success p f => [LoopEvent.runFinished p f]
   | RunOutcome.raised => [LoopEvent.runFailedLogged]) ++
  (if interval ≤ 0 then [LoopEvent.sleepPark] else [LoopEvent.sleepSeconds interval])

/-- Sum of the two counters and the pending buffer size: the number of input
rows already consumed by the loop of `process_partition`. -/
def countState (st : PState) : Nat :=
  st.processed + st.failed + st.buffer.length

/-- The default configuration of the app: `BATCH_SIZE=64`, id and text
columns named `id` and `text`. -/
def defaultCfg : Config :=
  { BATCH_SIZE := 64, TEXT_COLUMN := "text", ID_COLUMN := "id" }

/-- An environment where every embedding fetch and every upsert succeeds. -/
def okEnv : Env :=
  { embedResp := fun _ _ => EmbedResponse.http true (some [1]),
    upsertOk := fun _ => true,
    uuid := fun _ => "u" }

/-- A state holding exactly one buffered point. -/
def oneBuf : PState :=
  { initState with buffer := [{ id := "a", vector := [1], payload := [] }] }

/-- A well-formed input row with a non-blank text field. -/
def okRow : Payload := [("id", some "x"), ("text", some "hello")]

/-- A partition of 130 well-formed rows (the end-to-end scenario of §8). -/
def c8Rows : List Payload := List.replicate 130 okRow

/-- The in-loop flush block always clears the buffer (its `finally` clause). -/
theorem flushBlock_buffer (env : Env) (st : PState) : (flushBlock env st).buffer = [] := by
  unfold flushBlock
  dsimp only
  split <;> rfl

/-- The final flush block leaves the buffer untouched (no `finally` clause). -/
theorem finalFlushBlock_buffer (env : Env) (st : PState) :
    (finalFlushBlock env st).buffer = st.buffer := by
  unfold finalFlushBlock
  dsimp only
  split <;> rfl

/-- The in-loop flush block moves the whole buffer into one of the counters. -/
theorem flushBlock_count (env : Env) (st : PState) :
    countState (flushBlock env st) = countState st := by
  unfold flushBlock countState
  dsimp only
  split <;> simp <;> omega

/-- The final flush block adds the whole buffer size to one of the counters. -/
theorem finalFlushBlock_sum (env : Env) (st : PState) :
    (finalFlushBlock env st).processed + (finalFlushBlock env st).failed =
      st.processed + st.failed + st.buffer.length := by
  unfold finalFlushBlock
  dsimp only
  split <;> simp <;> omega

/-- A predicate preserved by each step of a fold holds of the fold's result. -/
theorem foldl_preserve {α β : Type} (f : α → β → α) (P : α → Prop)
    (hstep : ∀ a b, P a → P (f a b)) :
    ∀ (l : List β) (a : α), P a → P (List.foldl f a l) := by
  intro l
  induction l with
  | nil => intro a ha; simpa using ha
  | cons x xs ih => intro a ha; exact ih (f a x) (hstep a x ha)

/-- Each loop iteration of `process_partition` consumes exactly one row. -/
theorem processRow_count (cfg : Config) (env : Env) (st : PState) (row : Payload) :
    countState (processRow cfg env st row) = countState st + 1 := by
  unfold processRow
  cases hget : Payload.get row cfg.TEXT_COLUMN with
  | none => simp [countState]; omega
  | some t =>
    dsimp only
    split
    · simp [countState]; omega
    · split
      · simp [countState]; omega
      · split
        · rw [flushBlock_count]
          simp [countState, List.length_append]
          omega
        · simp [countState, List.length_append]
          omega

/-- Folding the loop body consumes one unit of `countState` per row. -/
theorem foldl_count (cfg : Config) (env : Env) :
    ∀ (rows : List Payload) (st : PState),
      countState (List.foldl (processRow cfg env) st rows) = countState st + rows.length := by
  intro rows
  induction rows with
  | nil => intro st; simp
  | cons r rs ih =>
    intro st
    have h1 := ih (processRow cfg env st r)
    have h2 := processRow_count cfg env st r
    simp only [List.foldl_cons, List.length_cons]
    omega

/-- C4: `fetch_embedding` never raises to its caller (it is a total function
into `Option`); it returns `none` on a raised transport/timeout/decoding
exception, on a non-success HTTP status, and on a missing or empty
`embedding` field; and it returns a vector exactly when the HTTP status is a
success and the body carries a non-empty `embedding` field. -/
theorem c4_fetch_embedding_total :
    fetch_embedding EmbedResponse.exc = none ∧
    (∀ b : Option EmbVector, fetch_embedding (EmbedResponse.http false b) = none) ∧
    (∀ ok : Bool, fetch_embedding (EmbedResponse.http ok none) = none) ∧
    (∀ ok : Bool, fetch_embedding (EmbedResponse.http ok (some [])) = none) ∧
    (∀ (resp : EmbedResponse) (v : EmbVector),
       fetch_embedding resp = some v ↔ resp = EmbedResponse.http true (some v) ∧ v ≠ []) := by
  refine ⟨rfl, fun b => rfl, fun ok => ?_, fun ok => ?_, fun resp v => ?_⟩
  · cases ok <;> rfl
  · cases ok <;> rfl
  · cases resp with
    | exc => simp [fetch_embedding]
    | http ok embedding =>
      cases ok with
      | false => simp [fetch_embedding]
      | true =>
        cases embedding with
        | none => simp [fetch_embedding]
        | some e =>
          cases e with
          | nil => simp [fetch_embedding]
          | cons x xs =>
            simp [fetch_embedding]
            rintro rfl
            simp

/-- Witness for C4: a success response with non-empty embedding `[3]` yields
the vector `[3]`. -/
theorem c4_witness : fetch_embedding (EmbedResponse.http true (some [3])) = some [3] :=
  (c4_fetch_embedding_total.2.2.2.2 (EmbedResponse.http true (some [3])) [3]).mpr
    ⟨rfl, by decide⟩

/-- C5: `resolve_distance` is total — every string maps to exactly one of the
three metrics — and after strip + lowercasing the aliases `dot`,
`dotproduct`, `dot_product` map to dot-product, `l2`, `euclid`, `euclidean`
map to Euclidean, and every other string maps to cosine. -/
theorem c5_resolve_distance_total (s : String) :
    (resolve_distance s = Distance.COSINE ∨ resolve_distance s = Distance.DOT ∨
     resolve_distance s = Distance.EUCLID) ∧
    ((pyLower (pyStrip s) = "dot" ∨ pyLower (pyStrip s) = "dotproduct" ∨
      pyLower (pyStrip s) = "dot_product") → resolve_distance s = Distance.DOT) ∧
    ((pyLower (pyStrip s) = "l2" ∨ pyLower (pyStrip s) = "euclid" ∨
      pyLower (pyStrip s) = "euclidean") → resolve_distance s = Distance.EUCLID) ∧
    (¬(pyLower (pyStrip s) = "dot" ∨ pyLower (pyStrip s) = "dotproduct" ∨
       pyLower (pyStrip s) = "dot_product" ∨ pyLower (pyStrip s) = "l2" ∨
       pyLower (pyStrip s) = "euclid" ∨ pyLower (pyStrip s) = "euclidean") →
     resolve_distance s = Distance.COSINE) := by
  unfold resolve_distance
  dsimp only
  by_cases h1 : pyLower (pyStrip s) = "dot" ∨ pyLower (pyStrip s) = "dotproduct" ∨
      pyLower (pyStrip s) = "dot_product"
  · rw [if_pos h1]
    refine ⟨Or.inr (Or.inl rfl), fun _ => rfl, fun h2 => ?_, fun h3 => ?_⟩
    · exfalso
      rcases h1 with h | h | h <;> rcases h2 with h' | h' | h' <;>
        (rw [h] at h'; exact absurd h' (by decide))
    · exact absurd (by tauto) h3
  · rw [if_neg h1]
    by_cases h2 : pyLower (pyStrip s) = "l2" ∨ pyLower (pyStrip s) = "euclid" ∨
        pyLower (pyStrip s) = "euclidean"
    · rw [if_pos h2]
      refine ⟨Or.inr (Or.inr rfl), fun h1' => absurd h1' h1, fun _ => rfl, fun h3 => ?_⟩
      exact absurd (by tauto) h3
    · rw [if_neg h2]
      exact ⟨Or.inl rfl, fun h1' => absurd h1' h1, fun h2' => absurd h2' h2, fun _ => rfl⟩

/-- Witness for C5: the padded, mixed-case string `" DoT "` resolves to the
dot-product metric. -/
theorem c5_witness : resolve_distance " DoT " = Distance.DOT :=
  (c5_resolve_distance_total " DoT ").2.1 (Or.inl (by decide))

/-- C7: when the collection listing raises, `ensure_collection` absorbs the
exception (the Lean embedding is a total function of the listing outcome)
and does not return early: it proceeds to create the collection with the
configured name, size and resolved metric. -/
theorem c7_listing_failure_creates (n : String) (size : Nat) (d : String) :
    ensure_collection ListOutcome.raised n size d =
      EnsureAction.create n size (resolve_distance d) := rfl

/-- C9: one pass of `main`'s loop is defined for every run outcome — a raised
`run_ingest` is caught and logged, never terminating the loop — and
regardless of the outcome the iteration ends in a sleep step (parking when
the interval is ≤ 0, an interval sleep otherwise). -/
theorem c9_loop_reaches_sleep (interval : Int) (outcome : RunOutcome) :
    ∃ e : LoopEvent, e.isSleep = true ∧
      main_iteration interval outcome =
        (match outcome with
         | RunOutcome.success p f => [LoopEvent.runFinished p f]
         | RunOutcome.raised => [LoopEvent.runFailedLogged]) ++ [e] ∧
      main_iteration interval RunOutcome.raised = [LoopEvent.runFailedLogged, e] := by
  by_cases h : interval ≤ 0
  · exact ⟨LoopEvent.sleepPark, rfl, by
      cases outcome <;> simp [main_iteration, h], by simp [main_iteration, h]⟩
  · exact ⟨LoopEvent.sleepSeconds interval, rfl, by
      cases outcome <;> simp [main_iteration, h], by simp [main_iteration, h]⟩

/-- C10: for every partition, environment and configuration, the pair
returned by `process_partition` satisfies processed + failed = number of
input rows: each row is accounted exactly once, immediately or through the
batch it was buffered into, every non-empty batch being flushed before the
function returns. -/
theorem c10_row_conservation (cfg : Config) (env : Env) (rows : List Payload) :
    (process_partition cfg env rows).processed + (process_partition cfg env rows).failed =
      rows.length := by
  unfold process_partition
  dsimp only
  have hc := foldl_count cfg env rows initState
  have hinit : countState initState = 0 := rfl
  rw [hinit] at hc
  simp only [countState] at hc
  split
  · rename_i hemp
    rw [List.isEmpty_iff] at hemp
    rw [hemp] at hc
    simp at hc
    omega
  · have hs := finalFlushBlock_sum env (List.foldl (processRow cfg env) initState rows)
    omega

/-- One loop iteration keeps the buffer strictly below `BATCH_SIZE` when it
was strictly below before, provided `BATCH_SIZE ≥ 1`. -/
theorem processRow_buffer_lt (cfg : Config) (env : Env) (h : 1 ≤ cfg.BATCH_SIZE)
    (st : PState) (row : Payload) (hst : st.buffer.length < cfg.BATCH_SIZE) :
    (processRow cfg env st row).buffer.length < cfg.BATCH_SIZE := by
  unfold processRow
  cases hget : Payload.get row cfg.TEXT_COLUMN with
  | none => simpa using hst
  | some t =>
    dsimp only
    split
    · simpa using hst
    · split
      · simpa using hst
      · split
        · rw [flushBlock_buffer]
          simpa using h
        · rename_i hnoflush
          simp only [List.length_append, List.length_cons, List.length_nil] at hnoflush ⊢
          omega

/-- C1 (amended): with a positive configured `BATCH_SIZE`, at every state
between loop iterations of `process_partition` the buffer holds strictly
fewer than `BATCH_SIZE` points — so the transient buffer right after an
append holds at most `BATCH_SIZE` points before the threshold flush fires —
and every in-loop flush attempt clears the buffer whether the upsert
succeeds or raises; the end-of-partition flush block, which has no
`finally` clause, leaves the buffer list unchanged. -/
theorem c1_buffer_discipline (cfg : Config) (env : Env) (h : 1 ≤ cfg.BATCH_SIZE) :
    (∀ rows : List Payload,
       (List.foldl (processRow cfg env) initState rows).buffer.length < cfg.BATCH_SIZE) ∧
    (∀ st : PState, (flushBlock env st).buffer = []) ∧
    (∀ st : PState, (finalFlushBlock env st).buffer = st.buffer) := by
  refine ⟨fun rows => ?_, flushBlock_buffer env, finalFlushBlock_buffer env⟩
  refine foldl_preserve (processRow cfg env)
    (fun st => st.buffer.length < cfg.BATCH_SIZE)
    (fun st row hst => processRow_buffer_lt cfg env h st row hst) rows initState ?_
  simpa [initState] using h

/-- Counterexample for C1 as stated: one valid row under the default
configuration; the end-of-partition flush issues one upsert, yet afterwards
the buffer still holds the flushed point — it is not empty after the final
flush attempt. -/
theorem c1_counterexample :
    (process_partition defaultCfg okEnv [okRow]).upsertCount = 1 ∧
    (process_partition defaultCfg okEnv [okRow]).buffer ≠ [] := by decide

/-- Witness for C1: under the default configuration the in-loop flush block
empties a one-point buffer. -/
theorem c1_witness : (flushBlock okEnv oneBuf).buffer = [] :=
  (c1_buffer_discipline defaultCfg okEnv (by decide)).2.1 oneBuf

/-- C2: flushing a non-empty batch is all-or-nothing in the accounting, for
the in-loop flush block and the end-of-partition flush block alike: when
the upsert succeeds, exactly the batch size is added to `processed` and
`failed` is unchanged; when it raises, exactly the batch size is added to
`failed` and `processed` is unchanged. -/
theorem c2_flush_atomic (env : Env) (st : PState) (h : st.buffer ≠ []) :
    (env.upsertOk st.upsertCount = true →
       (flushBlock env st).processed = st.processed + st.buffer.length ∧
       (flushBlock env st).failed = st.failed ∧
       (finalFlushBlock env st).processed = st.processed + st.buffer.length ∧
       (finalFlushBlock env st).failed = st.failed) ∧
    (env.upsertOk st.upsertCount = false →
       (flushBlock env st).failed = st.failed + st.buffer.length ∧
       (flushBlock env st).processed = st.processed ∧
       (finalFlushBlock env st).failed = st.failed + st.buffer.length ∧
       (finalFlushBlock env st).processed = st.processed) := by
  obtain ⟨x, xs, hbx⟩ := List.exists_cons_of_ne_nil h
  constructor <;> intro hok <;>
    simp [flushBlock, finalFlushBlock, flush_points, hbx, hok]

/-- Witness for C2: a one-point buffer flushed in an all-succeeding
environment adds one to `processed` and leaves `failed` unchanged. -/
theorem c2_witness :
    (flushBlock okEnv oneBuf).processed = oneBuf.processed + oneBuf.buffer.length ∧
    (flushBlock okEnv oneBuf).failed = oneBuf.failed ∧
    (finalFlushBlock okEnv oneBuf).processed = oneBuf.processed + oneBuf.buffer.length ∧
    (finalFlushBlock okEnv oneBuf).failed = oneBuf.failed :=
  (c2_flush_atomic okEnv oneBuf (by decide)).1 (by decide)

/-- C3: a record whose text field is null, or blank after stripping, only
increments `failed`: the resulting state is exactly the old state with
`failed + 1`, so in particular `fetchCount` — the number of embedding POSTs
issued — is unchanged: no embedding request is made for such a record. -/
theorem c3_blank_text_no_fetch (cfg : Config) (env : Env) (st : PState) (row : Payload)
    (h : Payload.get row cfg.TEXT_COLUMN = none ∨
         ∃ t, Payload.get row cfg.TEXT_COLUMN = some t ∧ pyStrip t = "") :
    processRow cfg env st row = { st with failed := st.failed + 1 } ∧
    (processRow cfg env st row).fetchCount = st.fetchCount := by
  have heq : processRow cfg env st row = { st with failed := st.failed + 1 } := by
    rcases h with h | ⟨t, hget, hblank⟩
    · unfold processRow
      rw [h]
    · unfold processRow
      rw [hget]
      dsimp only
      rw [if_pos hblank]
  exact ⟨heq, by rw [heq]⟩

/-- Witness for C3: a row whose text value is null is counted as one failure
without any embedding call. -/
theorem c3_witness :
    processRow defaultCfg okEnv initState [("text", none)] =
      { initState with failed := initState.failed + 1 } ∧
    (processRow defaultCfg okEnv initState [("text", none)]).fetchCount =
      initState.fetchCount :=
  c3_blank_text_no_fetch defaultCfg okEnv initState [("text", none)] (Or.inl (by decide))

/-- C6: `ensure_collection` is idempotent: a successful listing that already
contains the configured name leads to no creation, and against a
functioning store two consecutive calls with the same name, size and metric
create at most once, the second call being a no-op on the store. -/
theorem c6_ensure_idempotent (store : List String) (n : String) (size : Nat) (d : String) :
    (store.any (fun item => item == n) = true →
       ensure_collection (ListOutcome.ok store) n size d = EnsureAction.noop) ∧
    ((ensure_step (ensure_step store n size d).1 n size d).2 = false ∧
     (ensure_step (ensure_step store n size d).1 n size d).1 = (ensure_step store n size d).1 ∧
     (cond (ensure_step store n size d).2 1 0) +
       (cond (ensure_step (ensure_step store n size d).1 n size d).2 1 0) ≤ 1) := by
  by_cases hc : store.any (fun item => item == n) = true
  · constructor
    · intro _
      simp [ensure_collection, hc]
    · simp [ensure_step, ensure_collection, hc]
  · constructor
    · intro h'
      exact absurd h' hc
    · have h1 : ensure_step store n size d = (store ++ [n], true) := by
        simp only [ensure_step, ensure_collection]
        rw [if_neg hc]
      have h2 : (store ++ [n]).any (fun item => item == n) = true := by
        simp [List.any_append]
      rw [h1]
      simp [ensure_step, ensure_collection, h2]

/-- Witness for C6: with the collection `embeddings` already present, the
lookup short-circuits to a no-op and a repeated call performs no creation. -/
theorem c6_witness :
    ensure_collection (ListOutcome.ok ["embeddings"]) "embeddings" 768 "cosine" =
      EnsureAction.noop ∧
    (ensure_step (ensure_step ["embeddings"] "embeddings" 768 "cosine").1
       "embeddings" 768 "cosine").2 = false :=
  ⟨(c6_ensure_idempotent ["embeddings"] "embeddings" 768 "cosine").1 (by decide),
   (c6_ensure_idempotent ["embeddings"] "embeddings" 768 "cosine").2.1⟩

set_option maxRecDepth 10000 in
/-- C8: on a single partition of 130 valid rows with `BATCH_SIZE = 64`, all
embedding fetches and upserts succeeding, `process_partition` issues exactly
3 upsert calls — two flushes of 64 points and one final flush of 2 — and
yields `(processed, failed) = (130, 0)`. -/
theorem c8_scenario_130_rows :
    (process_partition defaultCfg okEnv c8Rows).upsertCount = 3 ∧
    (process_partition defaultCfg okEnv c8Rows).upsertSizes = [64, 64, 2] ∧
    partition_result defaultCfg okEnv c8Rows = (130, 0) := by decide

end Ingest
